import Mathlib

/-!
# Citra front-end glue: a shallow embedding

Sources embedded here:

* `src/citra/emu_window/emu_window_sdl2.cpp` (namespace `Citra.SDL2`)
* `src/citra_qt/bootmanager.cpp` (namespace `Citra.Qt`)

Calls into SDL2, Qt and the emulator core are recorded as items of a call trace,
and values that those libraries hand back are inputs of the embedded functions.
Machine integers are `Nat`/`Int` with an explicit reduction modulo `2 ^ 32` where
a conversion to `unsigned` takes place. The touch-to-pixel conversions are stated over
exact rationals in place of `float` and `qreal`; the touch-update handler, which adds
and divides positions, is embedded over an arbitrary arithmetic of `qreal`, so that it
covers the rounding arithmetic of `double`.
-/

namespace Citra

/-- Conversion of a signed integer value to a 32-bit `unsigned`. -/
def toU32 (z : Int) : Nat := (z % (2 ^ 32 : Int)).toNat

/-- The function `std::round`: nearest integer, halfway cases away from zero. -/
def stdRound (q : ℚ) : Int :=
  if 0 ≤ q then ⌊q + 1 / 2⌋ else -⌊-q + 1 / 2⌋

namespace SDL2

/-! ### Constants of the SDL2 headers used by the source -/

def SDL_BUTTON_LEFT : Nat := 1
def SDL_BUTTON_RIGHT : Nat := 3
def SDL_RELEASED : Nat := 0
def SDL_PRESSED : Nat := 1
def SDL_WINDOW_FULLSCREEN : Nat := 0x1
def SDL_WINDOW_FULLSCREEN_DESKTOP : Nat := 0x1001
def SDL_TOUCH_MOUSEID : Nat := 0xFFFFFFFF

def SDL_QUIT : Nat := 0x100
def SDL_WINDOWEVENT : Nat := 0x200
def SDL_KEYDOWN : Nat := 0x300
def SDL_KEYUP : Nat := 0x301
def SDL_MOUSEMOTION : Nat := 0x400
def SDL_MOUSEBUTTONDOWN : Nat := 0x401
def SDL_MOUSEBUTTONUP : Nat := 0x402
def SDL_FINGERDOWN : Nat := 0x700
def SDL_FINGERUP : Nat := 0x701
def SDL_FINGERMOTION : Nat := 0x702

def SDL_WINDOWEVENT_RESIZED : Nat := 5
def SDL_WINDOWEVENT_SIZE_CHANGED : Nat := 6
def SDL_WINDOWEVENT_MINIMIZED : Nat := 7
def SDL_WINDOWEVENT_MAXIMIZED : Nat := 8
def SDL_WINDOWEVENT_RESTORED : Nat := 9
def SDL_WINDOWEVENT_CLOSE : Nat := 14

/-- The members of the `SDL_Event` union that `PollEvents` reads. -/
structure SDL_Event where
  /-- Field `event.type`. -/
  type : Nat
  /-- Field `event.window.windowID`. -/
  windowID : Nat
  /-- Field `event.window.event`. -/
  windowEvent : Nat
  /-- Field `event.key.keysym.scancode`. -/
  scancode : Int
  /-- Field `event.key.state`. -/
  keyState : Nat
  /-- Field `event.button.which`. -/
  which : Nat
  /-- Field `event.button.button`. -/
  button : Nat
  /-- Field `event.button.state`. -/
  buttonState : Nat
  /-- Fields `event.motion.x`, `event.motion.y`. -/
  motionX : Int
  motionY : Int
  /-- Fields `event.button.x`, `event.button.y`. -/
  buttonX : Int
  buttonY : Int
  /-- Fields `event.tfinger.x`, `event.tfinger.y`. -/
  tfingerX : ℚ
  tfingerY : ℚ
deriving DecidableEq

/-- Calls that the SDL2 window makes into SDL, the logger and the emulator. -/
inductive Call
  | SDL_SetWindowFullscreen (flags : Nat)
  | SDL_MaximizeWindow
  | LOG_ERROR (msg : String)
  | LOG_INFO (msg : String)
  | TouchPressed (x y : Nat)
  | TouchMoved (x y : Nat)
  | TouchReleased
  | BeginTilt (x y : Int)
  | Tilt (x y : Int)
  | EndTilt
  | PressKey (key : Int)
  | ReleaseKey (key : Int)
  | OnResize
  | RequestClose
  | SDL_PushEvent (e : SDL_Event)
  | UpdateFramerateCounter
deriving DecidableEq

/-- The part of `EmuWindow_SDL2` that event handling reads. -/
structure EmuWindow_SDL2 where
  render_window_id : Nat
  is_secondary : Bool
  /-- Result of `SDL_GL_GetDrawableSize(render_window, &w, &h)`. -/
  drawable_w : Int
  drawable_h : Int

/-- Method `EmuWindow_SDL2::OnMouseMotion`. -/
def OnMouseMotion (x y : Int) : List Call :=
  [Call.TouchMoved (toU32 (max x 0)) (toU32 (max y 0)), Call.Tilt x y]

/-- Method `EmuWindow_SDL2::OnMouseButton`. -/
def OnMouseButton (button state : Nat) (x y : Int) : List Call :=
  if button = SDL_BUTTON_LEFT then
    if state = SDL_PRESSED then
      [Call.TouchPressed (toU32 (max x 0)) (toU32 (max y 0))]
    else
      [Call.TouchReleased]
  else if button = SDL_BUTTON_RIGHT then
    if state = SDL_PRESSED then
      [Call.BeginTilt x y]
    else
      [Call.EndTilt]
  else
    []

/-- Method `EmuWindow_SDL2::TouchToPixelPos`. -/
def TouchToPixelPos (win : EmuWindow_SDL2) (touch_x touch_y : ℚ) : Nat × Nat :=
  let touch_x := touch_x * win.drawable_w
  let touch_y := touch_y * win.drawable_h
  (toU32 (max (stdRound touch_x) 0), toU32 (max (stdRound touch_y) 0))

/-- Method `EmuWindow_SDL2::OnFingerDown`. -/
def OnFingerDown (win : EmuWindow_SDL2) (x y : ℚ) : List Call :=
  let p := TouchToPixelPos win x y
  [Call.TouchPressed p.1 p.2]

/-- Method `EmuWindow_SDL2::OnFingerMotion`. -/
def OnFingerMotion (win : EmuWindow_SDL2) (x y : ℚ) : List Call :=
  let p := TouchToPixelPos win x y
  [Call.TouchMoved p.1 p.2]

/-- Method `EmuWindow_SDL2::OnFingerUp`. -/
def OnFingerUp : List Call := [Call.TouchReleased]

/-- Method `EmuWindow_SDL2::OnKeyEvent`. -/
def OnKeyEvent (key : Int) (state : Nat) : List Call :=
  if state = SDL_PRESSED then [Call.PressKey key]
  else if state = SDL_RELEASED then [Call.ReleaseKey key]
  else []

/-- Method `EmuWindow_SDL2::Fullscreen`. The argument gives, for each flag value,
what `SDL_SetWindowFullscreen(render_window, flags)` returns. -/
def Fullscreen (setWindowFullscreen : Nat → Int) : List Call :=
  if setWindowFullscreen SDL_WINDOW_FULLSCREEN = 0 then
    [Call.SDL_SetWindowFullscreen SDL_WINDOW_FULLSCREEN]
  else if setWindowFullscreen SDL_WINDOW_FULLSCREEN_DESKTOP = 0 then
    [Call.SDL_SetWindowFullscreen SDL_WINDOW_FULLSCREEN,
     Call.LOG_ERROR "Fullscreening failed",
     Call.LOG_INFO "Attempting to use borderless fullscreen...",
     Call.SDL_SetWindowFullscreen SDL_WINDOW_FULLSCREEN_DESKTOP]
  else
    [Call.SDL_SetWindowFullscreen SDL_WINDOW_FULLSCREEN,
     Call.LOG_ERROR "Fullscreening failed",
     Call.LOG_INFO "Attempting to use borderless fullscreen...",
     Call.SDL_SetWindowFullscreen SDL_WINDOW_FULLSCREEN_DESKTOP,
     Call.LOG_ERROR "Borderless fullscreening failed",
     Call.LOG_INFO "Falling back on a maximised window...",
     Call.SDL_MaximizeWindow]

/-- The `switch (event.type)` of `PollEvents`, for an event of this window. -/
def dispatchEvent (win : EmuWindow_SDL2) (event : SDL_Event) : List Call :=
  if event.type = SDL_WINDOWEVENT then
    if event.windowEvent = SDL_WINDOWEVENT_SIZE_CHANGED
        ∨ event.windowEvent = SDL_WINDOWEVENT_RESIZED
        ∨ event.windowEvent = SDL_WINDOWEVENT_MAXIMIZED
        ∨ event.windowEvent = SDL_WINDOWEVENT_RESTORED
        ∨ event.windowEvent = SDL_WINDOWEVENT_MINIMIZED then
      [Call.OnResize]
    else if event.windowEvent = SDL_WINDOWEVENT_CLOSE then
      [Call.RequestClose]
    else
      []
  else if event.type = SDL_KEYDOWN ∨ event.type = SDL_KEYUP then
    OnKeyEvent event.scancode event.keyState
  else if event.type = SDL_MOUSEMOTION then
    if event.which ≠ SDL_TOUCH_MOUSEID then
      OnMouseMotion event.motionX event.motionY
    else
      []
  else if event.type = SDL_MOUSEBUTTONDOWN ∨ event.type = SDL_MOUSEBUTTONUP then
    if event.which ≠ SDL_TOUCH_MOUSEID then
      OnMouseButton event.button event.buttonState event.buttonX event.buttonY
    else
      []
  else if event.type = SDL_FINGERDOWN then
    OnFingerDown win event.tfingerX event.tfingerY
  else if event.type = SDL_FINGERMOTION then
    OnFingerMotion win event.tfingerX event.tfingerY
  else if event.type = SDL_FINGERUP then
    OnFingerUp
  else if event.type = SDL_QUIT then
    [Call.RequestClose]
  else
    []

/-- The `while (SDL_PollEvent(&event))` loop of `PollEvents`: the first argument is
the SDL event queue (each `SDL_PollEvent` removes its head and the loop ends when it
is empty), the second the vector `other_window_events` built so far. The result is
the calls made by the loop and the final `other_window_events`. -/
def pollLoop (win : EmuWindow_SDL2) :
    List SDL_Event → List SDL_Event → List Call × List SDL_Event
  | [], other_window_events => ([], other_window_events)
  | event :: queue, other_window_events =>
    if event.windowID ≠ win.render_window_id then
      pollLoop win queue (other_window_events ++ [event])
    else
      let rest := pollLoop win queue other_window_events
      (dispatchEvent win event ++ rest.1, rest.2)

/-- Method `EmuWindow_SDL2::PollEvents`, run on the given SDL event queue. The result
is the trace of calls and the SDL event queue afterwards (`SDL_PushEvent` appends to
the queue, which the loop has emptied). -/
def PollEvents (win : EmuWindow_SDL2) (queue : List SDL_Event) :
    List Call × List SDL_Event :=
  let polled := pollLoop win queue []
  let pushes := polled.2.map Call.SDL_PushEvent
  let framerate := if !win.is_secondary then [Call.UpdateFramerateCounter] else []
  (polled.1 ++ pushes ++ framerate, polled.2)

/-- An SDL2 window whose drawable is 400 by 480 pixels. -/
def sampleDrawable : EmuWindow_SDL2 :=
  { render_window_id := 1, is_secondary := false, drawable_w := 400, drawable_h := 480 }

end SDL2

namespace Qt

/-! ### Emulation thread (`EmuThread::run`) -/

/-- Values of `Core::System::ResultStatus`: the two that `EmuThread::run` names, and
every other status, kept by its numeric value. -/
inductive ResultStatus
  | Success
  | ShutdownRequested
  | Other (code : Nat)
deriving DecidableEq

/-- Values of `VideoCore::LoadCallbackStage`: the two that `EmuThread::run` names, and
every other stage, kept by its numeric value. -/
inductive LoadCallbackStage
  | Prepare
  | Complete
  | Other (code : Nat)
deriving DecidableEq

/-- Signals emitted and calls made by `EmuThread::run`. -/
inductive Event
  | Acquire
  | LoadProgress (stage : LoadCallbackStage) (value total : Nat)
  | HideLoadingScreen
  | MakeCurrent
  | WaitOnce
  | DebugModeLeft
  | DebugModeEntered
  | RunLoop
  | SingleStep
  | ErrorThrown (result : ResultStatus) (details : String)
  | SetRunning (value : Bool)
  | yieldCurrentThread
  | WaitRunningCv
  | Shutdown
deriving DecidableEq

/-- An event together with the value the local variable `was_active` holds at the
moment the event happens. -/
structure Emitted where
  was_active : Bool
  event : Event
deriving DecidableEq

/-- What one iteration of the main loop obtains from its environment: the values of
the shared atomics `stop_run`, `running` and `exec_step` at each place where the
loop body reads them, the status returned by `system.RunLoop()` and the string
returned by `GetStatusDetails()`. -/
structure Reads where
  /-- Value of `stop_run` in the loop condition `while (!stop_run)`. -/
  stop_run_head : Bool
  /-- Value of `running` in `if (running)`. -/
  running : Bool
  /-- Value of `exec_step` in `else if (exec_step)`. -/
  exec_step : Bool
  /-- Status returned by `system.RunLoop()`. -/
  result : ResultStatus
  /-- String returned by `GetStatusDetails()`. -/
  status_details : String
  /-- Value of `running` in `was_active = running || exec_step`. -/
  running_after : Bool
  /-- Value of `exec_step` in `was_active = running || exec_step`. -/
  exec_step_after : Bool
  /-- Value of `stop_run` in `if (!was_active && !stop_run)`. -/
  stop_run_after : Bool

/-- Attach the current value of `was_active` to a list of events. -/
def emitAt (was_active : Bool) (events : List Event) : List Emitted :=
  events.map (fun e => Emitted.mk was_active e)

/-- One pass through `while (!stop_run) { ... }`, loop condition included. The
result is the events of the pass and the next value of `was_active`, or `none` when
the loop is left (condition false, or `break`). The trace holds the signals emitted
and the calls made; the store `exec_step = false` in the single-step branch writes an
atomic whose later values are inputs of the following passes and is not an event. -/
def loopIteration (was_active : Bool) (r : Reads) : List Emitted × Option Bool :=
  if r.stop_run_head then
    ([], none)
  else if r.running then
    let left := if !was_active then [Event.DebugModeLeft] else []
    if r.result = ResultStatus.ShutdownRequested then
      (emitAt was_active (left ++ [Event.RunLoop, Event.ErrorThrown r.result ""]), none)
    else
      let error :=
        if r.result ≠ ResultStatus.Success then
          [Event.SetRunning false, Event.ErrorThrown r.result r.status_details]
        else []
      let was_active_new := r.running_after || r.exec_step_after
      let entered :=
        if !was_active_new && !r.stop_run_after then [Event.DebugModeEntered] else []
      (emitAt was_active (left ++ [Event.RunLoop] ++ error) ++ emitAt was_active_new entered,
        some was_active_new)
  else if r.exec_step then
    let left := if !was_active then [Event.DebugModeLeft] else []
    (emitAt was_active
        (left ++ [Event.SingleStep, Event.DebugModeEntered, Event.yieldCurrentThread]),
      some false)
  else
    (emitAt was_active [Event.WaitRunningCv], some was_active)

/-- The main loop of `EmuThread::run`, started with the given `was_active` and run
against the given environment, one `Reads` per pass. The result is the trace and
whether the loop was left; the trace of an environment that ends before the loop is
left is the trace up to that point. -/
def mainLoop : Bool → List Reads → List Emitted × Bool
  | _, [] => ([], false)
  | was_active, r :: rs =>
    match loopIteration was_active r with
    | (events, none) => (events, true)
    | (events, some was_active_new) =>
      let rest := mainLoop was_active_new rs
      (events ++ rest.1, rest.2)

/-- Method `EmuThread::run`: the code before the loop, the loop (entered with
`was_active = false`) and `system.Shutdown()` after it. `progress` lists the
callbacks made by `LoadDiskResources`. -/
def run (progress : List (LoadCallbackStage × Nat × Nat)) (isFrameAdvancing : Bool)
    (rs : List Reads) :
    List Event :=
  let loading :=
    [Event.Acquire, Event.LoadProgress LoadCallbackStage.Prepare 0 0]
      ++ progress.map (fun p => Event.LoadProgress p.1 p.2.1 p.2.2)
      ++ [Event.LoadProgress LoadCallbackStage.Complete 0 0, Event.HideLoadingScreen,
        Event.MakeCurrent]
  let frame_advance :=
    if isFrameAdvancing then [Event.HideLoadingScreen, Event.WaitOnce] else []
  let looped := mainLoop false rs
  loading ++ frame_advance ++ looped.1.map Emitted.event
    ++ (if looped.2 then [Event.Shutdown] else [])

/-- Values of `Frontend::WindowSystemType` that the source names. -/
inductive WindowSystemType
  | Windows
  | X11
  | Wayland
  | MacOS
deriving DecidableEq

/-- Function `GetWindowSystemType`, as a function of the string returned by
`QGuiApplication::platformName()`. The second component lists the messages passed
to `LOG_CRITICAL`. -/
def GetWindowSystemType (platform_name : String) : WindowSystemType × List String :=
  if platform_name = "windows" then
    (WindowSystemType.Windows, [])
  else if platform_name = "xcb" then
    (WindowSystemType.X11, [])
  else if platform_name = "wayland" then
    (WindowSystemType.Wayland, [])
  else if platform_name = "cocoa" then
    (WindowSystemType.MacOS, [])
  else
    (WindowSystemType.Windows, ["Unknown Qt platform!"])

/-! ### OpenGL contexts -/

/-- Values of `QSurfaceFormat::OpenGLContextProfile`. -/
inductive OpenGLContextProfile
  | NoProfile
  | CoreProfile
  | CompatibilityProfile
deriving DecidableEq

/-- The fields of a `QSurfaceFormat` that the source sets. -/
structure QSurfaceFormat where
  majorVersion : Nat
  minorVersion : Nat
  profile : OpenGLContextProfile
  debugContext : Bool
  swapInterval : Int
deriving DecidableEq

/-- A default-constructed `QSurfaceFormat`. -/
def QSurfaceFormat.default : QSurfaceFormat :=
  { majorVersion := 2, minorVersion := 0, profile := OpenGLContextProfile.NoProfile,
    debugContext := false, swapInterval := 1 }

/-- A `QSurface`: a window, or an offscreen surface with its format. -/
inductive QSurface
  | window (winId : Nat)
  | offscreen (format : QSurfaceFormat)
deriving DecidableEq

/-- A `QOpenGLContext`: the format given to `setFormat` and the format of the
context given to `setShareContext`, if any. -/
structure QOpenGLContext where
  format : QSurfaceFormat
  shareContext : Option QSurfaceFormat
deriving DecidableEq

/-- The settings read by the render window. The setting `use_vsync_new` is a
`bool`; passed to `setSwapInterval(int)` it becomes 1 or 0. -/
structure Settings where
  renderer_debug : Bool
  use_vsync_new : Bool

/-- Class `OpenGLSharedContext`. -/
structure OpenGLSharedContext where
  context : QOpenGLContext
  offscreen_surface : Option QSurface
  surface : QSurface
deriving DecidableEq

/-- Constructor `OpenGLSharedContext(QSurface* surface)`, which creates the original
context that the others share. -/
def OpenGLSharedContext.original (settings : Settings) (surface : QSurface) :
    OpenGLSharedContext :=
  let format := QSurfaceFormat.default
  let format := { format with majorVersion := 4, minorVersion := 4 }
  let format := { format with profile := OpenGLContextProfile.CoreProfile }
  let format := if settings.renderer_debug then { format with debugContext := true } else format
  let format := { format with swapInterval := 0 }
  { context := { format := format, shareContext := none },
    offscreen_surface := none,
    surface := surface }

/-- Constructor `OpenGLSharedContext(QOpenGLContext* share_context, QSurface*
main_surface = nullptr)`, which creates the shared contexts for rendering and
presentation; `none` stands for a null `main_surface`. -/
def OpenGLSharedContext.shared (settings : Settings) (share_context : QOpenGLContext)
    (main_surface : Option QSurface) : OpenGLSharedContext :=
  let format := share_context.format
  let format :=
    { format with
      swapInterval :=
        match main_surface with
        | some _ => if settings.use_vsync_new then 1 else 0
        | none => 0 }
  let context : QOpenGLContext := { format := format, shareContext := some share_context.format }
  match main_surface with
  | none =>
    { context := context,
      offscreen_surface := some (QSurface.offscreen format),
      surface := QSurface.offscreen format }
  | some main_surface =>
    { context := context, offscreen_surface := none, surface := main_surface }

/-- Method `OpenGLSharedContext::GetShareContext`. -/
def OpenGLSharedContext.GetShareContext (c : OpenGLSharedContext) : QOpenGLContext :=
  c.context

/-- Implementations of `Frontend::GraphicsContext` held in `main_context`. -/
inductive GraphicsContext
  | OpenGLShared (c : OpenGLSharedContext)
  | Dummy
deriving DecidableEq

/-! ### The render window -/

/-- A `QByteArray`, as its bytes. -/
abbrev QByteArray := List Nat

/-- A `QPointF`. -/
structure QPointF where
  x : ℚ
  y : ℚ
deriving DecidableEq

/-- Subclasses of `RenderWidget` created for `child_widget`. -/
inductive RenderWidget
  | OpenGL (is_secondary : Bool) (context : Option OpenGLSharedContext)
  | Vulkan
deriving DecidableEq

/-- Values of `Settings::GraphicsAPI` handled by `InitRenderTarget`. -/
inductive GraphicsAPI
  | OpenGL
  | OpenGLES
  | Vulkan
deriving DecidableEq

/-- Calls that change the state of the `QWidget` base object of the render window
and of the widgets it owns. -/
inductive QtCall
  | restoreGeometry (geometry : QByteArray)
  | removeWidget
  | deleteLater
  | dummyWidget
  | warning (title text : String)
  | newChild (child : RenderWidget)
  | windowHandleCreate
  | childResize (w h : Nat)
  | addWidget
  | setMinimumSize (w h : Nat)
  | resize (w h : Nat)
deriving DecidableEq

/-- The behaviour of the Qt base class `QWidget` that the render window relies on,
over an arbitrary type of Qt-side states. -/
structure QWidgetModel (σ : Type) where
  /-- Method `QObject::parent`, `none` for a null pointer. -/
  parent : σ → Option Nat
  /-- Method `QWidget::saveGeometry`. -/
  saveGeometry : σ → QByteArray
  /-- Methods `QWidget::width` and `QWidget::height`. -/
  width : σ → Int
  height : σ → Int
  /-- Method `QWidget::devicePixelRatioF`. -/
  devicePixelRatioF : σ → ℚ
  /-- Window id of the window handle of the child widget. -/
  childWinId : σ → Nat
  /-- Effect of a call on the Qt-side state. -/
  exec : QtCall → σ → σ

/-- Calls made by the render window into the emulator front end. -/
inductive Call
  | TouchPressed (x y : Nat)
  | TouchMoved (x y : Nat)
  | TouchReleased
  | UpdateCurrentFramebufferLayout (width height : Nat)
  | FirstFrameDisplayed
  | qt (c : QtCall)
deriving DecidableEq

/-- What `InitRenderTarget` reads from outside the render window. The screen sizes
are the constants of `core/3ds.h`. -/
structure Env where
  settings : Settings
  graphics_api : GraphicsAPI
  /-- Result of `QOpenGLContext::supportsThreadedOpenGL()`. -/
  supportsThreadedOpenGL : Bool
  /-- Result of `QGuiApplication::platformName()`. -/
  platform_name : String
  kScreenTopWidth : Nat
  kScreenTopHeight : Nat
  kScreenBottomHeight : Nat
  /-- Value of `GetActiveConfig().min_client_area_size`. -/
  min_client_area_size : Nat × Nat

/-- The fields of `WindowSystemInfo` filled in from a window. -/
structure WindowSystemInfo where
  type : WindowSystemType
  render_surface : Option Nat
  render_surface_scale : ℚ
deriving DecidableEq

/-- Class `GRenderWindow`: the Qt-side state of its `QWidget` base and its own
fields, with the trace of the calls it has made. -/
structure GRenderWindow (σ : Type) where
  qwidget : σ
  is_secondary : Bool
  geometry : QByteArray
  first_frame : Bool
  child_widget : Option RenderWidget
  main_context : Option GraphicsContext
  window_info : Option WindowSystemInfo
  trace : List Call

/-- Perform a Qt call: update the Qt-side state and record the call. -/
def GRenderWindow.call {σ : Type} (Q : QWidgetModel σ) (c : QtCall) (w : GRenderWindow σ) :
    GRenderWindow σ :=
  { w with qwidget := Q.exec c w.qwidget, trace := w.trace ++ [Call.qt c] }

/-- Conversion `static_cast<u32>` of a real value: truncation toward zero. -/
def truncU32 (q : ℚ) : Nat :=
  toU32 (if 0 ≤ q then ⌊q⌋ else ⌈q⌉)

/-- Method `GRenderWindow::windowPixelRatio`. -/
def GRenderWindow.windowPixelRatioF {σ : Type} (Q : QWidgetModel σ) (w : GRenderWindow σ) : ℚ :=
  Q.devicePixelRatioF w.qwidget

/-- Method `GRenderWindow::PollEvents`. -/
def GRenderWindow.PollEvents {σ : Type} (w : GRenderWindow σ) : GRenderWindow σ :=
  if !w.first_frame then
    { w with first_frame := true, trace := w.trace ++ [Call.FirstFrameDisplayed] }
  else w

/-- Method `GRenderWindow::OnFramebufferSizeChanged`. -/
def GRenderWindow.OnFramebufferSizeChanged {σ : Type} (Q : QWidgetModel σ) (w : GRenderWindow σ) :
    GRenderWindow σ :=
  let scale := w.windowPixelRatioF Q
  let width := truncU32 (Q.width w.qwidget * scale)
  let height := truncU32 (Q.height w.qwidget * scale)
  { w with trace := w.trace ++ [Call.UpdateCurrentFramebufferLayout width height] }

/-- Method `GRenderWindow::BackupGeometry`. -/
def GRenderWindow.BackupGeometry {σ : Type} (Q : QWidgetModel σ) (w : GRenderWindow σ) :
    GRenderWindow σ :=
  { w with geometry := Q.saveGeometry w.qwidget }

/-- Method `GRenderWindow::RestoreGeometry`, which restores from the backup. -/
def GRenderWindow.RestoreGeometry {σ : Type} (Q : QWidgetModel σ) (w : GRenderWindow σ) :
    GRenderWindow σ :=
  w.call Q (QtCall.restoreGeometry w.geometry)

/-- Method `GRenderWindow::restoreGeometry(const QByteArray& geometry)`. -/
def GRenderWindow.restoreGeometry {σ : Type} (Q : QWidgetModel σ) (w : GRenderWindow σ)
    (geometry : QByteArray) : GRenderWindow σ :=
  (w.call Q (QtCall.restoreGeometry geometry)).BackupGeometry Q

/-- Method `GRenderWindow::saveGeometry`: the returned array and the state after
the call. -/
def GRenderWindow.saveGeometry {σ : Type} (Q : QWidgetModel σ) (w : GRenderWindow σ) :
    QByteArray × GRenderWindow σ :=
  if Q.parent w.qwidget = none then
    (Q.saveGeometry w.qwidget, w)
  else
    (w.geometry, w)

/-- Method `GRenderWindow::ScaleTouch`. -/
def GRenderWindow.ScaleTouch {σ : Type} (Q : QWidgetModel σ) (w : GRenderWindow σ) (pos : QPointF) :
    Nat × Nat :=
  let scale := w.windowPixelRatioF Q
  (toU32 (max (stdRound (pos.x * scale)) 0), toU32 (max (stdRound (pos.y * scale)) 0))

/-! Touch point states of `Qt::TouchPointState`. -/

/-- Function `GetWindowSystemInfo`, for a non-null window with the given window id
and device pixel ratio (the branch for platforms other than Windows and macOS takes
the Wayland surface instead of the window id when the type is Wayland; both are
handles of the same window and are represented by the window id). -/
def GetWindowSystemInfo (platform_name : String) (window : Option (Nat × ℚ)) :
    WindowSystemInfo :=
  let type := (GetWindowSystemType platform_name).1
  match window with
  | some (winId, scale) =>
    { type := type, render_surface := some winId, render_surface_scale := scale }
  | none =>
    { type := type, render_surface := none, render_surface_scale := 1 }

/-- Method `GRenderWindow::ReleaseRenderTarget`. -/
def GRenderWindow.ReleaseRenderTarget {σ : Type} (Q : QWidgetModel σ) (w : GRenderWindow σ) :
    GRenderWindow σ :=
  let w :=
    match w.child_widget with
    | some _ =>
      let w := w.call Q QtCall.removeWidget
      let w := w.call Q QtCall.deleteLater
      { w with child_widget := none }
    | none => w
  { w with main_context := none }

/-- Method `GRenderWindow::InitializeOpenGL`. -/
def GRenderWindow.InitializeOpenGL {σ : Type} (Q : QWidgetModel σ) (env : Env) (w : GRenderWindow σ) :
    Bool × GRenderWindow σ :=
  if !env.supportsThreadedOpenGL then
    (false,
      w.call Q (QtCall.warning "OpenGL not available!"
        "OpenGL shared contexts are not supported."))
  else
    let child := RenderWidget.OpenGL w.is_secondary none
    let w := w.call Q (QtCall.newChild child)
    let w := { w with child_widget := some child }
    let w := w.call Q QtCall.windowHandleCreate
    let handle := QSurface.window (Q.childWinId w.qwidget)
    let context := OpenGLSharedContext.original env.settings handle
    let w := { w with main_context := some (GraphicsContext.OpenGLShared context) }
    let presentation :=
      OpenGLSharedContext.shared env.settings context.GetShareContext (some handle)
    let w :=
      { w with child_widget := some (RenderWidget.OpenGL w.is_secondary (some presentation)) }
    (true, w)

/-- Method `GRenderWindow::InitializeVulkan`. -/
def GRenderWindow.InitializeVulkan {σ : Type} (Q : QWidgetModel σ) (w : GRenderWindow σ) :
    Bool × GRenderWindow σ :=
  let child := RenderWidget.Vulkan
  let w := w.call Q (QtCall.newChild child)
  let w := { w with child_widget := some child }
  let w := w.call Q QtCall.windowHandleCreate
  let w := { w with main_context := some GraphicsContext.Dummy }
  (true, w)

/-- Method `GRenderWindow::OnMinimalClientAreaChangeRequest`. -/
def GRenderWindow.OnMinimalClientAreaChangeRequest {σ : Type} (Q : QWidgetModel σ)
    (minimal_size : Nat × Nat) (w : GRenderWindow σ) : GRenderWindow σ :=
  w.call Q (QtCall.setMinimumSize minimal_size.1 minimal_size.2)

/-- The part of `InitRenderTarget` after the `switch`. -/
def GRenderWindow.finishRenderTarget {σ : Type} (Q : QWidgetModel σ) (env : Env) (w : GRenderWindow σ) :
    GRenderWindow σ :=
  let handle := w.child_widget.map
    (fun _ => (Q.childWinId w.qwidget, Q.devicePixelRatioF w.qwidget))
  let w := { w with window_info := some (GetWindowSystemInfo env.platform_name handle) }
  let w := w.call Q
    (QtCall.childResize env.kScreenTopWidth (env.kScreenTopHeight + env.kScreenBottomHeight))
  let w := w.call Q QtCall.addWidget
  let w := w.call Q (QtCall.setMinimumSize 1 1)
  let w := w.call Q
    (QtCall.resize env.kScreenTopWidth (env.kScreenTopHeight + env.kScreenBottomHeight))
  let w := w.OnMinimalClientAreaChangeRequest Q env.min_client_area_size
  let w := w.OnFramebufferSizeChanged Q
  w.BackupGeometry Q

/-- Method `GRenderWindow::InitRenderTarget`: the returned flag and the state after
the call. -/
def GRenderWindow.InitRenderTarget {σ : Type} (Q : QWidgetModel σ) (env : Env) (w : GRenderWindow σ) :
    Bool × GRenderWindow σ :=
  let w := w.ReleaseRenderTarget Q
  let w := w.call Q QtCall.dummyWidget
  let w := { w with first_frame := false }
  match env.graphics_api with
  | GraphicsAPI.OpenGL | GraphicsAPI.OpenGLES =>
    let r := w.InitializeOpenGL Q env
    if !r.1 then (false, r.2) else (true, r.2.finishRenderTarget Q env)
  | GraphicsAPI.Vulkan =>
    let r := w.InitializeVulkan Q
    if !r.1 then (false, r.2) else (true, r.2.finishRenderTarget Q env)

/-- Method `GRenderWindow::CreateSharedContext`; `none` when `main_context` or
`child_widget` is not what the method dereferences. -/
def GRenderWindow.CreateSharedContext {σ : Type} (Q : QWidgetModel σ) (env : Env) (w : GRenderWindow σ) :
    Option GraphicsContext :=
  if env.graphics_api = GraphicsAPI.OpenGL ∨ env.graphics_api = GraphicsAPI.OpenGLES then
    match w.main_context, w.child_widget with
    | some (GraphicsContext.OpenGLShared c), some _ =>
      some (GraphicsContext.OpenGLShared
        (OpenGLSharedContext.shared env.settings c.GetShareContext
          (some (QSurface.window (Q.childWinId w.qwidget)))))
    | _, _ => none
  else
    some GraphicsContext.Dummy

/-- A small concrete `QWidget`: its parent, its geometry bytes and its size. -/
structure SimpleWidget where
  parent : Option Nat
  bytes : QByteArray
  w : Int
  h : Int

/-- A model of `QWidget` in which `restoreGeometry` stores the bytes and `resize`
sets the size. -/
def simpleModel : QWidgetModel SimpleWidget where
  parent := fun s => s.parent
  saveGeometry := fun s => s.bytes
  width := fun s => s.w
  height := fun s => s.h
  devicePixelRatioF := fun _ => 2
  childWinId := fun _ => 7
  exec := fun c s =>
    match c with
    | QtCall.restoreGeometry g => { s with bytes := g }
    | QtCall.resize w h => { s with w := w, h := h }
    | _ => s

/-- A render window over the simple widget model, with the given parent and stored
geometry; the widget itself currently has geometry bytes `[1, 2]`. -/
def sampleWindow (parent : Option Nat) (geometry : QByteArray) : GRenderWindow SimpleWidget :=
  { qwidget := { parent := parent, bytes := [1, 2], w := 10, h := 20 },
    is_secondary := false,
    geometry := geometry,
    first_frame := true,
    child_widget := none,
    main_context := none,
    window_info := none,
    trace := [] }

/-- An environment with the OpenGL backend, vsync on and threaded OpenGL supported
or not. -/
def sampleEnv (graphics_api : GraphicsAPI) (supportsThreadedOpenGL : Bool) : Env :=
  { settings := { renderer_debug := false, use_vsync_new := true },
    graphics_api := graphics_api,
    supportsThreadedOpenGL := supportsThreadedOpenGL,
    platform_name := "xcb",
    kScreenTopWidth := 400,
    kScreenTopHeight := 240,
    kScreenBottomHeight := 240,
    min_client_area_size := (400, 480) }

/-- A render window over the simple widget model that holds a Vulkan render target. -/
def sampleWindowWithTarget : GRenderWindow SimpleWidget :=
  { qwidget := { parent := none, bytes := [1, 2], w := 10, h := 20 },
    is_secondary := false,
    geometry := [],
    first_frame := true,
    child_widget := some RenderWidget.Vulkan,
    main_context := some GraphicsContext.Dummy,
    window_info := none,
    trace := [] }

/-- An environment in which the first `RunLoop` fails with status 3, the emulation is
resumed, the second `RunLoop` reports a shutdown request, and a further pass would
run if the loop went on. -/
def errorThenShutdownReads : List Reads :=
  [{ stop_run_head := false, running := true, exec_step := false,
     result := ResultStatus.Other 3, status_details := "fatal",
     running_after := false, exec_step_after := false, stop_run_after := false },
   { stop_run_head := false, running := true, exec_step := false,
     result := ResultStatus.ShutdownRequested, status_details := "",
     running_after := true, exec_step_after := false, stop_run_after := false },
   { stop_run_head := false, running := true, exec_step := false,
     result := ResultStatus.Success, status_details := "",
     running_after := true, exec_step_after := false, stop_run_after := false }]

end Qt

/-! ## Theorems: the SDL2 window -/

namespace SDL2

/-- C1: `Fullscreen` requests exclusive fullscreen first, requests borderless
fullscreen exactly when that request returned non-zero, maximises the window exactly
when both requests returned non-zero, and a request that returned 0 is the last call
of the trace. -/
theorem Fullscreen_fallback_order (setWindowFullscreen : Nat → Int) :
    (Fullscreen setWindowFullscreen).head?
        = some (Call.SDL_SetWindowFullscreen SDL_WINDOW_FULLSCREEN)
    ∧ (Call.SDL_SetWindowFullscreen SDL_WINDOW_FULLSCREEN_DESKTOP
          ∈ Fullscreen setWindowFullscreen
        ↔ setWindowFullscreen SDL_WINDOW_FULLSCREEN ≠ 0)
    ∧ (Call.SDL_MaximizeWindow ∈ Fullscreen setWindowFullscreen
        ↔ setWindowFullscreen SDL_WINDOW_FULLSCREEN ≠ 0
          ∧ setWindowFullscreen SDL_WINDOW_FULLSCREEN_DESKTOP ≠ 0)
    ∧ (∀ (i flags : Nat),
        (Fullscreen setWindowFullscreen)[i]? = some (Call.SDL_SetWindowFullscreen flags) →
        setWindowFullscreen flags = 0 →
        (Fullscreen setWindowFullscreen).length = i + 1) := by
  unfold Fullscreen
  by_cases h1 : setWindowFullscreen SDL_WINDOW_FULLSCREEN = 0
  · simp only [h1, if_true]
    refine ⟨rfl, by simp [SDL_WINDOW_FULLSCREEN, SDL_WINDOW_FULLSCREEN_DESKTOP], by simp, ?_⟩
    intro i flags hi _
    match i with
    | 0 => rfl
    | n + 1 => simp at hi
  · by_cases h2 : setWindowFullscreen SDL_WINDOW_FULLSCREEN_DESKTOP = 0
    · simp only [h1, h2, if_true, if_false]
      refine ⟨rfl, by simp [h1], by simp, ?_⟩
      intro i flags hi h0
      match i with
      | 0 =>
        simp at hi
        exact absurd (hi ▸ h0) h1
      | 1 => simp at hi
      | 2 => simp at hi
      | 3 => rfl
      | n + 4 => simp at hi
    · simp only [h1, h2, if_false]
      refine ⟨rfl, by simp [h1], by simp [h1, h2], ?_⟩
      intro i flags hi h0
      match i with
      | 0 =>
        simp at hi
        exact absurd (hi ▸ h0) h1
      | 1 => simp at hi
      | 2 => simp at hi
      | 3 =>
        simp at hi
        exact absurd (hi ▸ h0) h2
      | 4 => simp at hi
      | 5 => simp at hi
      | 6 => simp at hi
      | n + 7 => simp at hi

/-- Witness for C1: when the exclusive request returns 0 the trace has length one. -/
theorem Fullscreen_fallback_order_witness :
    (Fullscreen (fun _ => 0)).length = 0 + 1 :=
  (Fullscreen_fallback_order (fun _ => 0)).2.2.2 0 SDL_WINDOW_FULLSCREEN rfl rfl

/-- The polling loop dispatches the events of this window in order and appends the
events of other windows, in order, to `other_window_events`. -/
theorem pollLoop_eq (win : EmuWindow_SDL2) (queue other : List SDL_Event) :
    pollLoop win queue other
      = ((queue.filter (fun e => decide (e.windowID = win.render_window_id))).flatMap
            (dispatchEvent win),
          other ++ queue.filter (fun e => decide (e.windowID ≠ win.render_window_id))) := by
  induction queue generalizing other with
  | nil => simp [pollLoop]
  | cons e queue ih =>
    by_cases h : e.windowID = win.render_window_id
    · simp [pollLoop, h, ih]
    · simp [pollLoop, h, ih]

/-- No handler of the window pushes an event. -/
theorem dispatchEvent_no_push (win : EmuWindow_SDL2) (event pushed : SDL_Event) :
    Call.SDL_PushEvent pushed ∉ dispatchEvent win event := by
  unfold dispatchEvent OnKeyEvent OnMouseMotion OnMouseButton OnFingerDown OnFingerMotion
    OnFingerUp
  intro h
  repeat' split at h
  all_goals simp at h

/-- C2: `PollEvents` calls the handlers only for the events of this window, then
pushes every event of another window back exactly once, after the loop, in the order
in which they were polled; the SDL queue afterwards holds exactly those events, and
no handler call is a push. -/
theorem PollEvents_reemits_other_window_events (win : EmuWindow_SDL2)
    (queue : List SDL_Event) :
    (PollEvents win queue).1
        = (queue.filter (fun e => decide (e.windowID = win.render_window_id))).flatMap
            (dispatchEvent win)
          ++ (queue.filter (fun e => decide (e.windowID ≠ win.render_window_id))).map
            Call.SDL_PushEvent
          ++ (if win.is_secondary then [] else [Call.UpdateFramerateCounter])
    ∧ (PollEvents win queue).2
        = queue.filter (fun e => decide (e.windowID ≠ win.render_window_id))
    ∧ (∀ event pushed : SDL_Event, Call.SDL_PushEvent pushed ∉ dispatchEvent win event) := by
  refine ⟨?_, ?_, dispatchEvent_no_push win⟩
  · unfold PollEvents
    rw [pollLoop_eq]
    cases win.is_secondary <;> simp
  · unfold PollEvents
    rw [pollLoop_eq]
    simp

/-- C3: `OnMouseButton` makes one call or none: `TouchPressed` for a pressed left
button, `TouchReleased` for a left button in any other state, `BeginTilt(x, y)` for a
pressed right button, `EndTilt` for a right button in any other state, and nothing
for any other button. -/
theorem OnMouseButton_translation (button state : Nat) (x y : Int) :
    (button = SDL_BUTTON_LEFT → state = SDL_PRESSED →
        OnMouseButton button state x y
          = [Call.TouchPressed (toU32 (max x 0)) (toU32 (max y 0))])
    ∧ (button = SDL_BUTTON_LEFT → state ≠ SDL_PRESSED →
        OnMouseButton button state x y = [Call.TouchReleased])
    ∧ (button = SDL_BUTTON_RIGHT → state = SDL_PRESSED →
        OnMouseButton button state x y = [Call.BeginTilt x y])
    ∧ (button = SDL_BUTTON_RIGHT → state ≠ SDL_PRESSED →
        OnMouseButton button state x y = [Call.EndTilt])
    ∧ (button ≠ SDL_BUTTON_LEFT → button ≠ SDL_BUTTON_RIGHT →
        OnMouseButton button state x y = [])
    ∧ (OnMouseButton button state x y).length ≤ 1 := by
  have hlr : SDL_BUTTON_RIGHT ≠ SDL_BUTTON_LEFT := by decide
  refine ⟨?_, ?_, ?_, ?_, ?_, ?_⟩
  · intro hb hs
    simp [OnMouseButton, hb, hs]
  · intro hb hs
    simp [OnMouseButton, hb, hs]
  · intro hb hs
    simp [OnMouseButton, hb, hs, hlr]
  · intro hb hs
    simp [OnMouseButton, hb, hs, hlr]
  · intro hl hr
    simp [OnMouseButton, hl, hr]
  · unfold OnMouseButton
    repeat' split
    all_goals simp

/-- Witness for C3: a pressed right button at (5, -3) begins a tilt there. -/
theorem OnMouseButton_translation_witness :
    OnMouseButton 3 1 5 (-3) = [Call.BeginTilt 5 (-3)] :=
  (OnMouseButton_translation 3 1 5 (-3)).2.2.1 rfl rfl

end SDL2

/-! ## Theorems: the Qt render window -/

namespace Qt

/-- With a parent, `saveGeometry` returns the stored `geometry`. -/
theorem saveGeometry_result_aux {σ : Type} (Q : QWidgetModel σ) (w : GRenderWindow σ)
    (h : Q.parent w.qwidget ≠ none) : (w.saveGeometry Q).1 = w.geometry := by
  simp [GRenderWindow.saveGeometry, h]

/-- C4: `saveGeometry` returns `QWidget::saveGeometry()` when `parent()` is null and
the stored `geometry` otherwise, and leaves the object (the stored `geometry`
included) unchanged. -/
theorem saveGeometry_result {σ : Type} (Q : QWidgetModel σ) (w : GRenderWindow σ) :
    (Q.parent w.qwidget = none → (w.saveGeometry Q).1 = Q.saveGeometry w.qwidget)
    ∧ (Q.parent w.qwidget ≠ none → (w.saveGeometry Q).1 = w.geometry)
    ∧ (w.saveGeometry Q).2 = w := by
  unfold GRenderWindow.saveGeometry
  refine ⟨?_, ?_, ?_⟩
  · intro h
    simp [h]
  · intro h
    simp [h]
  · split <;> rfl

/-- Witness for C4: a window with a parent returns its stored backup. -/
theorem saveGeometry_result_witness :
    ((sampleWindow (some 1) [9]).saveGeometry simpleModel).1 = [9] :=
  (saveGeometry_result simpleModel (sampleWindow (some 1) [9])).2.1 (by simp [sampleWindow, simpleModel])

/-- C5: after `restoreGeometry(g)` the stored backup is what `QWidget::saveGeometry()`
returns on the widget as restored from `g`, so a widget with a parent then returns
exactly that from `saveGeometry()`; `RestoreGeometry()` restores the widget from the
backup and leaves the backup unchanged. -/
theorem restoreGeometry_backs_up {σ : Type} (Q : QWidgetModel σ) (w : GRenderWindow σ)
    (g : QByteArray) :
    (w.restoreGeometry Q g).qwidget = Q.exec (QtCall.restoreGeometry g) w.qwidget
    ∧ (w.restoreGeometry Q g).geometry
        = Q.saveGeometry (Q.exec (QtCall.restoreGeometry g) w.qwidget)
    ∧ (Q.parent (w.restoreGeometry Q g).qwidget ≠ none →
        ((w.restoreGeometry Q g).saveGeometry Q).1
          = Q.saveGeometry (Q.exec (QtCall.restoreGeometry g) w.qwidget))
    ∧ (w.RestoreGeometry Q).qwidget = Q.exec (QtCall.restoreGeometry w.geometry) w.qwidget
    ∧ (w.RestoreGeometry Q).geometry = w.geometry := by
  refine ⟨rfl, rfl, ?_, rfl, rfl⟩
  intro h
  rw [(saveGeometry_result_aux Q (w.restoreGeometry Q g)) h]
  rfl

/-- Witness for C5: a window with a parent, restored from `[4, 5]`, then returns
`[4, 5]` from `saveGeometry`. -/
theorem restoreGeometry_backs_up_witness :
    (((sampleWindow (some 1) [9]).restoreGeometry simpleModel [4, 5]).saveGeometry
        simpleModel).1
      = simpleModel.saveGeometry
          (simpleModel.exec (QtCall.restoreGeometry [4, 5]) (sampleWindow (some 1) [9]).qwidget) :=
  (restoreGeometry_backs_up simpleModel (sampleWindow (some 1) [9]) [4, 5]).2.2.1
    (by simp [sampleWindow, simpleModel, GRenderWindow.restoreGeometry,
      GRenderWindow.BackupGeometry, GRenderWindow.call])

/-- C6: `GetWindowSystemType` is total on platform names: the four known names give
their type without a log, every other name gives `Windows` after one critical log,
and the result is `Wayland` exactly for the name "wayland". -/
theorem GetWindowSystemType_total (platform_name : String) :
    (platform_name = "windows" →
        GetWindowSystemType platform_name = (WindowSystemType.Windows, []))
    ∧ (platform_name = "xcb" →
        GetWindowSystemType platform_name = (WindowSystemType.X11, []))
    ∧ (platform_name = "wayland" →
        GetWindowSystemType platform_name = (WindowSystemType.Wayland, []))
    ∧ (platform_name = "cocoa" →
        GetWindowSystemType platform_name = (WindowSystemType.MacOS, []))
    ∧ (platform_name ≠ "windows" → platform_name ≠ "xcb" → platform_name ≠ "wayland" →
        platform_name ≠ "cocoa" →
        GetWindowSystemType platform_name
          = (WindowSystemType.Windows, ["Unknown Qt platform!"]))
    ∧ ((GetWindowSystemType platform_name).1 = WindowSystemType.Wayland
        ↔ platform_name = "wayland") := by
  refine ⟨?_, ?_, ?_, ?_, ?_, ?_⟩
  · intro h
    subst h
    decide
  · intro h
    subst h
    decide
  · intro h
    subst h
    decide
  · intro h
    subst h
    decide
  · intro h1 h2 h3 h4
    simp [GetWindowSystemType, h1, h2, h3, h4]
  · unfold GetWindowSystemType
    constructor
    · intro h
      by_contra hne
      repeat' split at h
      all_goals simp_all
    · intro h
      subst h
      decide

/-- Witness for C6: the unknown platform name "offscreen" gives `Windows` and one
critical log. -/
theorem GetWindowSystemType_total_witness :
    GetWindowSystemType "offscreen" = (WindowSystemType.Windows, ["Unknown Qt platform!"]) :=
  (GetWindowSystemType_total "offscreen").2.2.2.2.1
    (by decide) (by decide) (by decide) (by decide)

/-- C8 is violated by the code: the sharing constructor, given a non-null main surface
while `use_vsync_new` is set, builds a context with swap interval 1, although the
comment in the constructor says that vsync is disabled for any shared context. The
presentation context that `InitRenderTarget` gives the OpenGL render widget and the
context that `CreateSharedContext` returns are built this way. -/
theorem shared_context_vsync_enabled :
    (OpenGLSharedContext.shared { renderer_debug := false, use_vsync_new := true }
        { format := QSurfaceFormat.default, shareContext := none }
        (some (QSurface.window 1))).context.format.swapInterval = 1
    ∧ (∃ c : OpenGLSharedContext,
        ((sampleWindow none []).InitRenderTarget simpleModel
            (sampleEnv GraphicsAPI.OpenGL true)).2.child_widget
          = some (RenderWidget.OpenGL false (some c))
        ∧ c.context.format.swapInterval = 1)
    ∧ (∃ c : OpenGLSharedContext,
        (((sampleWindow none []).InitRenderTarget simpleModel
            (sampleEnv GraphicsAPI.OpenGL true)).2.CreateSharedContext simpleModel
            (sampleEnv GraphicsAPI.OpenGL true))
          = some (GraphicsContext.OpenGLShared c)
        ∧ c.context.format.swapInterval = 1)
    ∧ ¬ (∀ (settings : Settings) (share_context : QOpenGLContext)
          (main_surface : Option QSurface),
          (OpenGLSharedContext.shared settings share_context
            main_surface).context.format.swapInterval = 0) := by
  refine ⟨rfl, ⟨_, rfl, rfl⟩, ⟨_, rfl, rfl⟩, ?_⟩
  intro h
  have h1 := h { renderer_debug := false, use_vsync_new := true }
    { format := QSurfaceFormat.default, shareContext := none } (some (QSurface.window 1))
  exact absurd h1 (by decide)

/-- After `ReleaseRenderTarget` there is no child widget and no main context; the
calls made are the removal and deletion of the previous child widget, if any. -/
theorem ReleaseRenderTarget_fields {σ : Type} (Q : QWidgetModel σ) (w : GRenderWindow σ) :
    (w.ReleaseRenderTarget Q).child_widget = none
    ∧ (w.ReleaseRenderTarget Q).main_context = none
    ∧ (w.ReleaseRenderTarget Q).trace
        = w.trace ++ (if w.child_widget.isSome then
            [Call.qt QtCall.removeWidget, Call.qt QtCall.deleteLater] else []) := by
  unfold GRenderWindow.ReleaseRenderTarget
  cases h : w.child_widget <;> simp [GRenderWindow.call, h]

/-- The rest of `InitRenderTarget` after the `switch` keeps the render target fields
and `first_frame`. -/
theorem finishRenderTarget_fields {σ : Type} (Q : QWidgetModel σ) (env : Env)
    (w : GRenderWindow σ) :
    (w.finishRenderTarget Q env).child_widget = w.child_widget
    ∧ (w.finishRenderTarget Q env).main_context = w.main_context
    ∧ (w.finishRenderTarget Q env).first_frame = w.first_frame
    ∧ ∃ rest, (w.finishRenderTarget Q env).trace = w.trace ++ rest := by
  refine ⟨rfl, rfl, rfl, ?_⟩
  simp [GRenderWindow.finishRenderTarget, GRenderWindow.BackupGeometry,
    GRenderWindow.OnFramebufferSizeChanged, GRenderWindow.OnMinimalClientAreaChangeRequest,
    GRenderWindow.call]

/-- C9: `InitRenderTarget` first releases the previous render target: its first calls
are `removeWidget` and `deleteLater` for the previous child widget, if there is one,
before the dummy widget, the warning or the creation of the new child. It returns
false exactly when the graphics API is OpenGL or OpenGLES and `InitializeOpenGL`
returns false, which it does exactly when threaded OpenGL is unsupported; on false
`child_widget` is null and `main_context` is empty, on true both are set; and
`first_frame` is false afterwards in both cases. -/
theorem InitRenderTarget_result {σ : Type} (Q : QWidgetModel σ) (env : Env)
    (w : GRenderWindow σ) :
    (∀ w0 : GRenderWindow σ,
        (w0.InitializeOpenGL Q env).1 = false ↔ env.supportsThreadedOpenGL = false)
    ∧ ((w.InitRenderTarget Q env).1 = false
        ↔ (env.graphics_api = GraphicsAPI.OpenGL ∨ env.graphics_api = GraphicsAPI.OpenGLES)
          ∧ ((((w.ReleaseRenderTarget Q).call Q QtCall.dummyWidget).InitializeOpenGL Q env).1
              = false))
    ∧ ((w.InitRenderTarget Q env).1 = false →
        (w.InitRenderTarget Q env).2.child_widget = none
          ∧ (w.InitRenderTarget Q env).2.main_context = none)
    ∧ ((w.InitRenderTarget Q env).1 = true →
        (w.InitRenderTarget Q env).2.child_widget ≠ none
          ∧ (w.InitRenderTarget Q env).2.main_context ≠ none)
    ∧ (w.InitRenderTarget Q env).2.first_frame = false
    ∧ (∃ rest, (w.InitRenderTarget Q env).2.trace
        = (w.ReleaseRenderTarget Q).trace ++ rest)
    ∧ (w.ReleaseRenderTarget Q).child_widget = none
    ∧ (w.ReleaseRenderTarget Q).main_context = none
    ∧ ((w.InitRenderTarget Q env).1 = false →
        (w.InitRenderTarget Q env).2.trace
          = w.trace
            ++ (if w.child_widget.isSome then
                [Call.qt QtCall.removeWidget, Call.qt QtCall.deleteLater] else [])
            ++ [Call.qt QtCall.dummyWidget,
                Call.qt (QtCall.warning "OpenGL not available!"
                  "OpenGL shared contexts are not supported.")])
    ∧ ((w.InitRenderTarget Q env).1 = true →
        ∃ rest, (w.InitRenderTarget Q env).2.trace
          = w.trace
            ++ (if w.child_widget.isSome then
                [Call.qt QtCall.removeWidget, Call.qt QtCall.deleteLater] else [])
            ++ [Call.qt QtCall.dummyWidget,
                Call.qt (QtCall.newChild
                  (if env.graphics_api = GraphicsAPI.Vulkan then RenderWidget.Vulkan
                    else RenderWidget.OpenGL w.is_secondary none)),
                Call.qt QtCall.windowHandleCreate]
            ++ rest) := by
  have hrel := ReleaseRenderTarget_fields Q w
  have hgl : ∀ w0 : GRenderWindow σ,
      (w0.InitializeOpenGL Q env).1 = false ↔ env.supportsThreadedOpenGL = false := by
    intro w0
    unfold GRenderWindow.InitializeOpenGL
    cases env.supportsThreadedOpenGL <;> simp
  have hsec : (w.ReleaseRenderTarget Q).is_secondary = w.is_secondary := by
    unfold GRenderWindow.ReleaseRenderTarget
    cases w.child_widget <;> rfl
  refine ⟨hgl, ?_, ?_, ?_, ?_, ?_, hrel.1, hrel.2.1, ?_, ?_⟩
  rotate_left 5
  · intro hfalse
    unfold GRenderWindow.InitRenderTarget at hfalse ⊢
    cases hapi : env.graphics_api <;> cases hsup : env.supportsThreadedOpenGL <;>
      simp [hapi, GRenderWindow.InitializeOpenGL, GRenderWindow.InitializeVulkan, hsup,
        GRenderWindow.call, hrel.2.2] at hfalse ⊢
  · intro htrue
    unfold GRenderWindow.InitRenderTarget at htrue ⊢
    cases hapi : env.graphics_api <;> cases hsup : env.supportsThreadedOpenGL <;>
      simp [hapi, GRenderWindow.InitializeOpenGL, GRenderWindow.InitializeVulkan, hsup,
        GRenderWindow.call, GRenderWindow.finishRenderTarget, GRenderWindow.BackupGeometry,
        GRenderWindow.OnFramebufferSizeChanged,
        GRenderWindow.OnMinimalClientAreaChangeRequest, hrel.2.2, hsec,
        List.append_assoc] at htrue ⊢
  · rw [hgl]
    unfold GRenderWindow.InitRenderTarget
    cases hapi : env.graphics_api <;> cases hsup : env.supportsThreadedOpenGL <;>
      simp [GRenderWindow.InitializeOpenGL, GRenderWindow.InitializeVulkan, hsup]
  · unfold GRenderWindow.InitRenderTarget
    cases hapi : env.graphics_api <;> cases hsup : env.supportsThreadedOpenGL <;>
      simp [GRenderWindow.InitializeOpenGL, GRenderWindow.InitializeVulkan, hsup,
        GRenderWindow.call, hrel.1, hrel.2.1]
  · unfold GRenderWindow.InitRenderTarget
    cases hapi : env.graphics_api <;> cases hsup : env.supportsThreadedOpenGL <;>
      simp [GRenderWindow.InitializeOpenGL, GRenderWindow.InitializeVulkan, hsup,
        GRenderWindow.call, GRenderWindow.finishRenderTarget, GRenderWindow.BackupGeometry,
        GRenderWindow.OnFramebufferSizeChanged,
        GRenderWindow.OnMinimalClientAreaChangeRequest]
  · unfold GRenderWindow.InitRenderTarget
    cases hapi : env.graphics_api <;> cases hsup : env.supportsThreadedOpenGL <;>
      simp [GRenderWindow.InitializeOpenGL, GRenderWindow.InitializeVulkan, hsup,
        GRenderWindow.call, GRenderWindow.finishRenderTarget, GRenderWindow.BackupGeometry,
        GRenderWindow.OnFramebufferSizeChanged,
        GRenderWindow.OnMinimalClientAreaChangeRequest]
  · unfold GRenderWindow.InitRenderTarget
    cases hapi : env.graphics_api <;> cases hsup : env.supportsThreadedOpenGL <;>
      simp [GRenderWindow.InitializeOpenGL, GRenderWindow.InitializeVulkan, hsup,
        GRenderWindow.call, GRenderWindow.finishRenderTarget, GRenderWindow.BackupGeometry,
        GRenderWindow.OnFramebufferSizeChanged,
        GRenderWindow.OnMinimalClientAreaChangeRequest, List.append_assoc]

/-- Witness for C9: with the OpenGL backend and no threaded OpenGL, a window that had
a render target removes and deletes its child widget first and is left without child
widget and without main context. -/
theorem InitRenderTarget_result_witness :
    ((sampleWindowWithTarget.InitRenderTarget simpleModel
        (sampleEnv GraphicsAPI.OpenGL false)).2.child_widget = none
      ∧ (sampleWindowWithTarget.InitRenderTarget simpleModel
        (sampleEnv GraphicsAPI.OpenGL false)).2.main_context = none)
    ∧ (sampleWindowWithTarget.InitRenderTarget simpleModel
        (sampleEnv GraphicsAPI.OpenGL false)).2.trace
      = [Call.qt QtCall.removeWidget, Call.qt QtCall.deleteLater,
          Call.qt QtCall.dummyWidget,
          Call.qt (QtCall.warning "OpenGL not available!"
            "OpenGL shared contexts are not supported.")] :=
  ⟨(InitRenderTarget_result simpleModel (sampleEnv GraphicsAPI.OpenGL false)
      sampleWindowWithTarget).2.2.1 rfl,
    (InitRenderTarget_result simpleModel (sampleEnv GraphicsAPI.OpenGL false)
      sampleWindowWithTarget).2.2.2.2.2.2.2.2.1 rfl⟩

/-- No pass of the loop calls `system.Shutdown()`. -/
theorem loopIteration_no_Shutdown (was_active : Bool) (r : Reads) :
    Event.Shutdown ∉ (loopIteration was_active r).1.map Emitted.event := by
  rcases r with ⟨sh, run, ex, res, det, ra, ea, sa⟩
  by_cases h1 : res = ResultStatus.ShutdownRequested <;>
    by_cases h2 : res = ResultStatus.Success <;>
    cases sh <;> cases run <;> cases ex <;> cases was_active <;> cases ra <;> cases ea <;>
    cases sa <;>
    simp [loopIteration, emitAt, h1, h2]

/-- The loop never calls `system.Shutdown()`. -/
theorem mainLoop_no_Shutdown (rs : List Reads) (was_active : Bool) :
    Event.Shutdown ∉ (mainLoop was_active rs).1.map Emitted.event := by
  induction rs generalizing was_active with
  | nil => simp [mainLoop]
  | cons r rs ih =>
    have h := loopIteration_no_Shutdown was_active r
    unfold mainLoop
    rcases hit : loopIteration was_active r with ⟨events, next⟩
    rw [hit] at h
    cases next with
    | none => simpa using h
    | some wa =>
      simp only [List.map_append, List.mem_append, not_or]
      exact ⟨h, ih wa⟩

/-- A pass leaves the loop exactly when `stop_run` is read as true in the loop
condition or `running` is set and `RunLoop` reports a shutdown request. -/
theorem loopIteration_exit_iff (was_active : Bool) (r : Reads) :
    (loopIteration was_active r).2 = none
      ↔ r.stop_run_head = true
        ∨ (r.running = true ∧ r.result = ResultStatus.ShutdownRequested) := by
  rcases r with ⟨sh, run, ex, res, det, ra, ea, sa⟩
  by_cases h1 : res = ResultStatus.ShutdownRequested <;>
    cases sh <;> cases run <;> cases ex <;> simp [loopIteration, h1]

/-- The loop is left exactly when some pass of the environment reads `stop_run` as
true in the loop condition or has `running` set and a shutdown request from `RunLoop`. -/
theorem mainLoop_exit_iff (rs : List Reads) (was_active : Bool) :
    (mainLoop was_active rs).2 = true
      ↔ ∃ r ∈ rs, r.stop_run_head = true
          ∨ (r.running = true ∧ r.result = ResultStatus.ShutdownRequested) := by
  induction rs generalizing was_active with
  | nil => simp [mainLoop]
  | cons r rs ih =>
    have h := loopIteration_exit_iff was_active r
    unfold mainLoop
    rcases hit : loopIteration was_active r with ⟨events, next⟩
    rw [hit] at h
    cases next with
    | none =>
      simp only [true_iff] at h
      simp [h]
    | some wa =>
      have h' : ¬ (r.stop_run_head = true
          ∨ (r.running = true ∧ r.result = ResultStatus.ShutdownRequested)) := by
        intro hc
        have := h.mpr hc
        simp at this
      simp only [ih wa, List.mem_cons, exists_eq_or_imp, h', false_or]

/-- When the first pass leaves the loop, the trace is that of the first pass, whatever
the rest of the environment. -/
theorem mainLoop_cons_none (was_active : Bool) (r : Reads) (rs : List Reads)
    (h : (loopIteration was_active r).2 = none) :
    mainLoop was_active (r :: rs) = ((loopIteration was_active r).1, true) := by
  conv_lhs => unfold mainLoop
  rcases hit : loopIteration was_active r with ⟨events, next⟩
  rw [hit] at h
  simp at h
  subst h
  rfl

/-- When the first pass does not leave the loop, the loop goes on with the new
`was_active` on the rest of the environment. -/
theorem mainLoop_cons_some (was_active next : Bool) (r : Reads) (rs : List Reads)
    (h : (loopIteration was_active r).2 = some next) :
    mainLoop was_active (r :: rs)
      = ((loopIteration was_active r).1 ++ (mainLoop next rs).1, (mainLoop next rs).2) := by
  conv_lhs => unfold mainLoop
  rcases hit : loopIteration was_active r with ⟨events, nx⟩
  rw [hit] at h
  simp at h
  subst h
  rfl

/-- C11: a pass calls `RunLoop` exactly when `stop_run` is clear and `running` is set.
On `ShutdownRequested` the pass emits `ErrorThrown` with that result and an empty
string and the loop ends there, whatever the environment would do next; on any other
result different from `Success` the pass calls `SetRunning(false)` and emits
`ErrorThrown` with the status details, and the loop goes on; on `Success` the pass
emits no `ErrorThrown` and the loop goes on. The loop is left exactly when `stop_run`
is read as true or a shutdown is requested, and then `run` calls `system.Shutdown()`
exactly once, as its last call. -/
theorem RunLoop_result_handling (was_active : Bool) (r : Reads) (rs : List Reads)
    (progress : List (LoadCallbackStage × Nat × Nat)) (isFrameAdvancing : Bool) :
    (Event.RunLoop ∈ (loopIteration was_active r).1.map Emitted.event
        ↔ r.stop_run_head = false ∧ r.running = true)
    ∧ (r.stop_run_head = false → r.running = true →
        r.result = ResultStatus.ShutdownRequested →
        (loopIteration was_active r).1.map Emitted.event
            = (if was_active then [] else [Event.DebugModeLeft])
              ++ [Event.RunLoop, Event.ErrorThrown ResultStatus.ShutdownRequested ""]
          ∧ mainLoop was_active (r :: rs) = ((loopIteration was_active r).1, true))
    ∧ (r.stop_run_head = false → r.running = true →
        r.result ≠ ResultStatus.ShutdownRequested → r.result ≠ ResultStatus.Success →
        (loopIteration was_active r).1.map Emitted.event
            = (if was_active then [] else [Event.DebugModeLeft])
              ++ [Event.RunLoop, Event.SetRunning false,
                  Event.ErrorThrown r.result r.status_details]
              ++ (if (r.running_after || r.exec_step_after) = false ∧ r.stop_run_after = false
                  then [Event.DebugModeEntered] else [])
          ∧ mainLoop was_active (r :: rs)
              = ((loopIteration was_active r).1
                    ++ (mainLoop (r.running_after || r.exec_step_after) rs).1,
                  (mainLoop (r.running_after || r.exec_step_after) rs).2))
    ∧ (r.stop_run_head = false → r.running = true → r.result = ResultStatus.Success →
        (∀ (result : ResultStatus) (details : String),
            Event.ErrorThrown result details
              ∉ (loopIteration was_active r).1.map Emitted.event)
          ∧ mainLoop was_active (r :: rs)
              = ((loopIteration was_active r).1
                    ++ (mainLoop (r.running_after || r.exec_step_after) rs).1,
                  (mainLoop (r.running_after || r.exec_step_after) rs).2))
    ∧ ((mainLoop false rs).2 = true
        ↔ ∃ r ∈ rs, r.stop_run_head = true
            ∨ (r.running = true ∧ r.result = ResultStatus.ShutdownRequested))
    ∧ ((mainLoop false rs).2 = true →
        (run progress isFrameAdvancing rs).count Event.Shutdown = 1
          ∧ (run progress isFrameAdvancing rs).getLast? = some Event.Shutdown) := by
  refine ⟨?_, ?_, ?_, ?_, mainLoop_exit_iff rs false, ?_⟩
  · rcases r with ⟨sh, run, ex, res, det, ra, ea, sa⟩
    by_cases h1 : res = ResultStatus.ShutdownRequested <;>
      by_cases h2 : res = ResultStatus.Success <;>
      cases sh <;> cases run <;> cases ex <;> cases was_active <;> cases ra <;> cases ea <;>
      cases sa <;>
      simp [loopIteration, emitAt, h1, h2]
  · intro hs hr hres
    refine ⟨?_, mainLoop_cons_none was_active r rs ?_⟩
    · cases was_active <;> simp [loopIteration, emitAt, hs, hr, hres]
    · simp [loopIteration, hs, hr, hres]
  · intro hs hr hne1 hne2
    refine ⟨?_, mainLoop_cons_some was_active _ r rs ?_⟩
    · cases was_active <;> cases hra : r.running_after <;> cases hea : r.exec_step_after <;>
        cases hsa : r.stop_run_after <;>
        simp [loopIteration, emitAt, hs, hr, hne1, hne2, hra, hea, hsa]
    · simp [loopIteration, hs, hr, hne1]
  · intro hs hr hres
    have hne : r.result ≠ ResultStatus.ShutdownRequested := by
      rw [hres]
      decide
    refine ⟨?_, mainLoop_cons_some was_active _ r rs ?_⟩
    · intro result details
      cases was_active <;> cases hra : r.running_after <;> cases hea : r.exec_step_after <;>
        cases hsa : r.stop_run_after <;>
        simp [loopIteration, emitAt, hs, hr, hres, hra, hea, hsa]
    · simp [loopIteration, hs, hr, hne]
  · intro hexit
    have hno := mainLoop_no_Shutdown rs false
    unfold run
    simp only [hexit, if_true]
    constructor
    · rw [List.count_append, List.count_append, List.count_append]
      have hc : List.count Event.Shutdown ((mainLoop false rs).1.map Emitted.event) = 0 :=
        List.count_eq_zero.mpr hno
      rw [hc]
      cases isFrameAdvancing <;> simp [List.count_eq_zero]
    · exact List.getLast?_concat _

/-- Witness for C11: after a failed `RunLoop` and a shutdown request the trace of `run`
ends with the error signals and one `Shutdown`, and the third pass never runs. -/
theorem RunLoop_result_handling_witness :
    run [] false errorThenShutdownReads
        = [Event.Acquire, Event.LoadProgress LoadCallbackStage.Prepare 0 0,
            Event.LoadProgress LoadCallbackStage.Complete 0 0, Event.HideLoadingScreen,
            Event.MakeCurrent,
            Event.DebugModeLeft, Event.RunLoop, Event.SetRunning false,
            Event.ErrorThrown (ResultStatus.Other 3) "fatal", Event.DebugModeEntered,
            Event.DebugModeLeft, Event.RunLoop,
            Event.ErrorThrown ResultStatus.ShutdownRequested "", Event.Shutdown]
    ∧ (run [] false errorThenShutdownReads).count Event.Shutdown = 1
    ∧ (run [] false errorThenShutdownReads).getLast? = some Event.Shutdown :=
  ⟨by decide,
    (RunLoop_result_handling false
      { stop_run_head := false, running := true, exec_step := false,
        result := ResultStatus.Success, status_details := "",
        running_after := true, exec_step_after := false, stop_run_after := false }
      errorThenShutdownReads [] false).2.2.2.2.2 (by decide)⟩

end Qt

/-! ## Theorems: coordinate conversions -/

/-- A value that fits in 32 bits is unchanged by the conversion to `unsigned`. -/
theorem toU32_of_lt (z : Int) (h0 : 0 ≤ z) (h1 : z < 2 ^ 32) : (toU32 z : Int) = z := by
  unfold toU32
  rw [Int.emod_eq_of_lt h0 h1]
  exact Int.toNat_of_nonneg h0

/-- The conversion to `unsigned` never exceeds a non-negative argument. -/
theorem toU32_le (z : Int) (h0 : 0 ≤ z) : (toU32 z : Int) ≤ z := by
  unfold toU32
  rw [Int.toNat_of_nonneg (Int.emod_nonneg _ (by norm_num))]
  by_cases hz : z < 2 ^ 32
  · rw [Int.emod_eq_of_lt h0 hz]
  · have hlt := Int.emod_lt_of_pos z (show (0 : Int) < 2 ^ 32 by norm_num)
    push_neg at hz
    linarith

/-- Rounding a value between 0 and an integer gives an integer in the same range. -/
theorem stdRound_mem_range (q : ℚ) (n : Int) (h0 : 0 ≤ q) (h1 : q ≤ n) :
    0 ≤ stdRound q ∧ stdRound q ≤ n := by
  unfold stdRound
  rw [if_pos h0]
  constructor
  · exact Int.floor_nonneg.mpr (by linarith)
  · have : ⌊q + 1 / 2⌋ < n + 1 := by
      rw [Int.floor_lt]
      push_cast
      linarith
    omega

/-- Rounding a value that is not positive gives an integer that is not positive. -/
theorem stdRound_nonpos (q : ℚ) (h : q ≤ 0) : stdRound q ≤ 0 := by
  unfold stdRound
  split
  · have hq : q = 0 := le_antisymm h (by assumption)
    subst hq
    norm_num
  · have : 0 ≤ ⌊-q + 1 / 2⌋ := Int.floor_nonneg.mpr (by linarith)
    omega

/-- After the clamp at zero, rounding halfway cases away from zero (`std::round`) and
rounding them up give the same value. -/
theorem max_stdRound_eq_max_round (q : ℚ) : max (stdRound q) 0 = max (round q) 0 := by
  by_cases h : 0 ≤ q
  · unfold stdRound
    rw [if_pos h, round_eq]
  · have hq : q < 0 := lt_of_not_ge h
    have h1 : stdRound q ≤ 0 := stdRound_nonpos q hq.le
    have h2 : round q ≤ 0 := by
      rw [round_eq]
      have : ⌊q + 1 / 2⌋ < 1 := by
        rw [Int.floor_lt]
        push_cast
        linarith
      omega
    rw [max_eq_right h1, max_eq_right h2]

/-- A value that fits in 32 bits converts to the natural number equal to it. -/
theorem toU32_eq_toNat (z : Int) (h0 : 0 ≤ z) (h1 : z < 2 ^ 32) : toU32 z = z.toNat := by
  unfold toU32
  rw [Int.emod_eq_of_lt h0 h1]

/-- The clamp of a signed 32-bit value at zero converts to `unsigned` unchanged. -/
theorem toU32_max_zero (x : Int) (hx : x < 2 ^ 31) : toU32 (max x 0) = (max x 0).toNat := by
  apply toU32_eq_toNat
  · exact le_max_right x 0
  · have : max x 0 < 2 ^ 31 := max_lt hx (by norm_num)
    linarith

namespace SDL2

/-- C12: for signed 32-bit `x` and `y`, `OnMouseMotion` calls `TouchMoved` with
`max(x, 0)` and `max(y, 0)`, each at most `2 ^ 31 - 1` and 0 for a negative input (never
a wrapped negative value), and then `Tilt` with the original `x` and `y`;
`OnMouseButton` for a pressed left button passes the same clamped pair to
`TouchPressed`. -/
theorem OnMouseMotion_clamps (x y : Int)
    (hx : -(2 ^ 31) ≤ x ∧ x < 2 ^ 31) (hy : -(2 ^ 31) ≤ y ∧ y < 2 ^ 31) :
    OnMouseMotion x y
        = [Call.TouchMoved (max x 0).toNat (max y 0).toNat, Call.Tilt x y]
    ∧ ((max x 0).toNat : Int) = max x 0 ∧ ((max y 0).toNat : Int) = max y 0
    ∧ (max x 0).toNat ≤ 2 ^ 31 - 1 ∧ (max y 0).toNat ≤ 2 ^ 31 - 1
    ∧ (x < 0 → (max x 0).toNat = 0) ∧ (y < 0 → (max y 0).toNat = 0)
    ∧ OnMouseButton SDL_BUTTON_LEFT SDL_PRESSED x y
        = [Call.TouchPressed (max x 0).toNat (max y 0).toNat] := by
  have hmx : max x 0 < 2 ^ 31 := max_lt hx.2 (by norm_num)
  have hmy : max y 0 < 2 ^ 31 := max_lt hy.2 (by norm_num)
  refine ⟨?_, ?_, ?_, ?_, ?_, ?_, ?_, ?_⟩
  · simp [OnMouseMotion, toU32_max_zero x hx.2, toU32_max_zero y hy.2]
  · exact Int.toNat_of_nonneg (le_max_right x 0)
  · exact Int.toNat_of_nonneg (le_max_right y 0)
  · omega
  · omega
  · intro h
    rw [max_eq_right h.le]
    rfl
  · intro h
    rw [max_eq_right h.le]
    rfl
  · simp [OnMouseButton, toU32_max_zero x hx.2, toU32_max_zero y hy.2]

/-- Witness for C12: a motion to (-5, 7) moves the touch to (0, 7) and tilts to (-5, 7). -/
theorem OnMouseMotion_clamps_witness :
    OnMouseMotion (-5) 7 = [Call.TouchMoved 0 7, Call.Tilt (-5) 7]
    ∧ OnMouseButton SDL_BUTTON_LEFT SDL_PRESSED (-5) 7 = [Call.TouchPressed 0 7] :=
  ⟨(OnMouseMotion_clamps (-5) 7 (by decide) (by decide)).1,
    (OnMouseMotion_clamps (-5) 7 (by decide) (by decide)).2.2.2.2.2.2.2⟩

end SDL2

/-- One component of a touch-to-pixel conversion, `max(round(t * s), 0)` converted to
`unsigned`: it is that value when the value fits in 32 bits, it is at most `n` when
`t * s` lies between 0 and the integer `n`, and it is 0 when `t * s` is not positive. -/
theorem clampComponent (q : ℚ) :
    (max (stdRound q) 0 < 2 ^ 32 → (toU32 (max (stdRound q) 0) : Int) = max (stdRound q) 0)
    ∧ (∀ n : Int, 0 ≤ q → q ≤ n → (toU32 (max (stdRound q) 0) : Int) ≤ n)
    ∧ (q ≤ 0 → toU32 (max (stdRound q) 0) = 0) := by
  refine ⟨?_, ?_, ?_⟩
  · intro h
    exact toU32_of_lt _ (le_max_right _ _) h
  · intro n h0 h1
    have hr := stdRound_mem_range q n h0 h1
    have hm : max (stdRound q) 0 ≤ n := max_le hr.2 (le_trans hr.1 hr.2)
    exact le_trans (toU32_le _ (le_max_right _ _)) hm
  · intro h
    rw [max_eq_right (stdRound_nonpos q h)]
    rfl

/-- C13: with exact arithmetic, `TouchToPixelPos` returns `max(round(touch_x * w), 0)`
and `max(round(touch_y * h), 0)` wherever these fit the `unsigned` result; for a
drawable of size `w` by `h` and a normalised position the result lies between 0 and
`w`, respectively `h`, and equals those values; a negative touch coordinate gives 0;
`ScaleTouch` returns `max(round(pos * pixel_ratio), 0)` per component in the same
way. After the clamp, the rounding of halfway cases does not matter. -/
theorem touch_to_pixel_clamps {σ : Type} (win : SDL2.EmuWindow_SDL2) (touch_x touch_y : ℚ)
    (Q : Qt.QWidgetModel σ) (w : Qt.GRenderWindow σ) (pos : Qt.QPointF) :
    (max (stdRound (touch_x * win.drawable_w)) 0 < 2 ^ 32 →
        ((SDL2.TouchToPixelPos win touch_x touch_y).1 : Int)
          = max (stdRound (touch_x * win.drawable_w)) 0)
    ∧ (max (stdRound (touch_y * win.drawable_h)) 0 < 2 ^ 32 →
        ((SDL2.TouchToPixelPos win touch_x touch_y).2 : Int)
          = max (stdRound (touch_y * win.drawable_h)) 0)
    ∧ (0 ≤ win.drawable_w → 0 ≤ touch_x → touch_x ≤ 1 →
        ((SDL2.TouchToPixelPos win touch_x touch_y).1 : Int) ≤ win.drawable_w)
    ∧ (0 ≤ win.drawable_h → 0 ≤ touch_y → touch_y ≤ 1 →
        ((SDL2.TouchToPixelPos win touch_x touch_y).2 : Int) ≤ win.drawable_h)
    ∧ (0 ≤ win.drawable_w → win.drawable_w < 2 ^ 31 → 0 ≤ touch_x → touch_x ≤ 1 →
        ((SDL2.TouchToPixelPos win touch_x touch_y).1 : Int)
          = max (stdRound (touch_x * win.drawable_w)) 0)
    ∧ (0 ≤ win.drawable_h → win.drawable_h < 2 ^ 31 → 0 ≤ touch_y → touch_y ≤ 1 →
        ((SDL2.TouchToPixelPos win touch_x touch_y).2 : Int)
          = max (stdRound (touch_y * win.drawable_h)) 0)
    ∧ (0 ≤ win.drawable_w → touch_x < 0 → (SDL2.TouchToPixelPos win touch_x touch_y).1 = 0)
    ∧ (0 ≤ win.drawable_h → touch_y < 0 → (SDL2.TouchToPixelPos win touch_x touch_y).2 = 0)
    ∧ (max (stdRound (pos.x * Q.devicePixelRatioF w.qwidget)) 0 < 2 ^ 32 →
        ((w.ScaleTouch Q pos).1 : Int)
          = max (stdRound (pos.x * Q.devicePixelRatioF w.qwidget)) 0)
    ∧ (max (stdRound (pos.y * Q.devicePixelRatioF w.qwidget)) 0 < 2 ^ 32 →
        ((w.ScaleTouch Q pos).2 : Int)
          = max (stdRound (pos.y * Q.devicePixelRatioF w.qwidget)) 0)
    ∧ (∀ q : ℚ, max (stdRound q) 0 = max (round q) 0) := by
  have hwx : ∀ t : ℚ, ∀ s : Int, 0 ≤ s → 0 ≤ t → t ≤ 1 → 0 ≤ t * s ∧ t * (s : ℚ) ≤ s := by
    intro t s hs h0 h1
    have hs' : (0 : ℚ) ≤ s := by exact_mod_cast hs
    exact ⟨mul_nonneg h0 hs', by nlinarith⟩
  have hneg : ∀ t : ℚ, ∀ s : Int, 0 ≤ s → t < 0 → t * (s : ℚ) ≤ 0 := by
    intro t s hs ht
    have hs' : (0 : ℚ) ≤ s := by exact_mod_cast hs
    exact mul_nonpos_of_nonpos_of_nonneg ht.le hs'
  have hfit : ∀ t : ℚ, ∀ s : Int, 0 ≤ s → s < 2 ^ 31 → 0 ≤ t → t ≤ 1 →
      max (stdRound (t * s)) 0 < 2 ^ 32 := by
    intro t s hs hlt h0 h1
    have hr := stdRound_mem_range (t * s) s (hwx t s hs h0 h1).1 (hwx t s hs h0 h1).2
    have : max (stdRound (t * s)) 0 ≤ s := max_le hr.2 hs
    linarith
  refine ⟨?_, ?_, ?_, ?_, ?_, ?_, ?_, ?_, ?_, ?_, max_stdRound_eq_max_round⟩
  · exact (clampComponent _).1
  · exact (clampComponent _).1
  · intro hw h0 h1
    exact (clampComponent _).2.1 _ (hwx _ _ hw h0 h1).1 (hwx _ _ hw h0 h1).2
  · intro hh h0 h1
    exact (clampComponent _).2.1 _ (hwx _ _ hh h0 h1).1 (hwx _ _ hh h0 h1).2
  · intro hw hlt h0 h1
    exact (clampComponent _).1 (hfit _ _ hw hlt h0 h1)
  · intro hh hlt h0 h1
    exact (clampComponent _).1 (hfit _ _ hh hlt h0 h1)
  · intro hw ht
    exact (clampComponent _).2.2 (hneg _ _ hw ht)
  · intro hh ht
    exact (clampComponent _).2.2 (hneg _ _ hh ht)
  · exact (clampComponent _).1
  · exact (clampComponent _).1

/-- Witness for C13: in a drawable of 400 by 480 the touch position (1/2, 1/4) gives the
pixel position (200, 120), inside the drawable, and the negative coordinate -1/2
gives 0. -/
theorem touch_to_pixel_clamps_witness :
    SDL2.TouchToPixelPos SDL2.sampleDrawable (1 / 2) (1 / 4) = (200, 120)
    ∧ ((SDL2.TouchToPixelPos SDL2.sampleDrawable (1 / 2) (1 / 4)).1 : Int) ≤ 400
    ∧ ((SDL2.TouchToPixelPos SDL2.sampleDrawable (1 / 2) (1 / 4)).2 : Int) ≤ 480
    ∧ (SDL2.TouchToPixelPos SDL2.sampleDrawable (-1 / 2) (1 / 4)).1 = 0 :=
  ⟨by
      simp [SDL2.TouchToPixelPos, SDL2.sampleDrawable, stdRound, toU32]
      norm_num
      exact ⟨rfl, rfl⟩,
    (touch_to_pixel_clamps SDL2.sampleDrawable (1 / 2) (1 / 4) Qt.simpleModel
      (Qt.sampleWindow none []) ⟨0, 0⟩).2.2.1
      (by decide) (by norm_num) (by norm_num),
    (touch_to_pixel_clamps SDL2.sampleDrawable (1 / 2) (1 / 4) Qt.simpleModel
      (Qt.sampleWindow none []) ⟨0, 0⟩).2.2.2.1
      (by decide) (by norm_num) (by norm_num),
    (touch_to_pixel_clamps SDL2.sampleDrawable (-1 / 2) (1 / 4) Qt.simpleModel
      (Qt.sampleWindow none []) ⟨0, 0⟩).2.2.2.2.2.2.1
      (by decide) (by norm_num)⟩

end Citra
